import Mathlib

/-!
# Verification of the Amanush front-end streaming/session/permission layer

Shallow embedding of the TypeScript sources under `src/frontend/src`:
* `utils/auth.ts` — the pure permission evaluator (`hasPermission`,
  `canManageUsers`, `canViewUser`, `canEditUser`, `canDeleteUser`);
* `api/agent.ts` — session lifecycle client and VNC-URL builder;
* `api/file.ts` — file operations and download-URL builder;
* the SSE stream manager contract (the `createSSEConnection` helper of
  `api/client.ts`), modelled from the specification.

HTTP transports and the backend are abstracted as function parameters
(`transport`, `mint`, …): each client function is embedded as a function of
the transport, so theorems quantify over every possible backend behaviour.
-/

/-! ## Data model: users and roles (`api/auth.ts` / `utils/auth.ts`) -/

/-- The closed role set of the client-side user model. -/
inductive UserRole where
  | admin
  | user
deriving DecidableEq, Repr

/-- The fields of the `User` record that the permission evaluator reads. -/
structure User where
  id : String
  username : String
  email : String
  is_active : Bool
  role : UserRole
deriving DecidableEq, Repr

/-- `rolePermissions` table from `utils/auth.ts` (lines 14–28): the admin row
is the wildcard list, the user row is the fixed allow-list. -/
def rolePermissions : UserRole → List String
  | UserRole.admin => ["*"]
  | UserRole.user =>
      ["read:profile", "update:profile", "change:password",
       "create:session", "read:session", "update:session", "delete:session",
       "upload:file", "read:file", "delete:file"]

/-- `hasPermission` from `utils/auth.ts` (lines 7–32): null/inactive users are
denied, admin short-circuits to true, otherwise the role's permission list is
consulted (wildcard or exact membership). -/
def hasPermission : Option User → String → Bool
  | none, _ => false
  | some u, permission =>
    if !u.is_active then false
    else if u.role = UserRole.admin then true
    else
      let userPermissions := rolePermissions u.role
      userPermissions.contains "*" || userPermissions.contains permission

/-- `canManageUsers` from `utils/auth.ts` (lines 44–46): note the second
disjunct tests only the role, with no `is_active` guard. -/
def canManageUsers (user : Option User) : Bool :=
  hasPermission user "manage:users" ||
    (match user with
     | some u => decide (u.role = UserRole.admin)
     | none => false)

/-- `canViewUser` from `utils/auth.ts` (lines 65–73). -/
def canViewUser : Option User → String → Bool
  | none, _ => false
  | some u, targetUserId =>
    if !u.is_active then false
    else if u.id = targetUserId then true
    else decide (u.role = UserRole.admin)

/-- `canEditUser` from `utils/auth.ts` (lines 78–86). -/
def canEditUser : Option User → String → Bool
  | none, _ => false
  | some u, targetUserId =>
    if !u.is_active then false
    else if u.id = targetUserId then true
    else decide (u.role = UserRole.admin)

/-- `canDeleteUser` from `utils/auth.ts` (lines 91–99): inactive/null denied,
self-deletion denied, otherwise admin-only. -/
def canDeleteUser : Option User → String → Bool
  | none, _ => false
  | some u, targetUserId =>
    if !u.is_active then false
    else if u.id = targetUserId then false
    else decide (u.role = UserRole.admin)

/-! ## Transport abstraction (`api/client.ts` is absent from the sources;
requests and the response envelope are modelled from the spec) -/

/-- HTTP method of a request issued through the transport primitive. -/
inductive Method where
  | get
  | post
  | put
  | del
deriving DecidableEq, Repr

/-- A request as the client composes it: method, path relative to the base
URL, extra headers. -/
structure Request where
  method : Method
  path : String
  headers : List (String × String)
deriving DecidableEq, Repr

/-- Modelled from the spec: the error taxonomy of §7 (Unauthorized, Forbidden,
NotFound, Conflict, Transport, Validation) used for typed failures surfaced by
the missing Transport/Token components of `api/client.ts` and `api/auth.ts`. -/
inductive ApiError where
  | unauthorized
  | forbidden
  | notFound
  | conflict
  | transport
  | validation
deriving DecidableEq, Repr

/-- Modelled from the spec: the `{ success, data }` response envelope
(spec §6, "Response envelope"); axios' `response.data` field in the source is
this parsed body. -/
structure ApiResponse (α : Type) where
  success : Bool
  data : α
deriving Repr

/-- A transport in the role of `apiClient` of the missing `api/client.ts`:
takes the composed request and either fails with a typed error or yields the
parsed response body. -/
def Transport (α : Type) : Type := Request → Except ApiError (ApiResponse α)

/-! ## File operations (`api/file.ts`) -/

/-- `FileInfo` from `api/file.ts` (lines 8–15); the untyped `metadata` record
is omitted as no claim reads it. -/
structure FileInfo where
  file_id : String
  filename : String
  content_type : Option String
  size : Nat
  upload_date : String
deriving DecidableEq, Repr

/-- `deleteFile` from `api/file.ts` (lines 57–65): the DELETE call is wrapped
in try/catch; success maps to `true` and any failure is caught (logged) and
mapped to `false`. The backend call is abstracted as `transport`. -/
def deleteFile (transport : Transport Unit) (fileId : String) : Bool :=
  match transport ⟨Method.del, "/files/" ++ fileId, []⟩ with
  | Except.ok _ => true
  | Except.error _ => false

/-- `getFileInfo` from `api/file.ts` (lines 72–80): the GET call is wrapped in
try/catch; success yields the unwrapped `data` field and any failure is caught
(logged) and mapped to `null`. -/
def getFileInfo (transport : Transport FileInfo) (fileId : String) : Option FileInfo :=
  match transport ⟨Method.get, "/files/" ++ fileId, []⟩ with
  | Except.ok response => some response.data
  | Except.error _ => none

/-- Modelled from the spec: the body of the token returned by
`createFileAccessToken` of the missing `api/auth.ts` — the source reads only
its `access_token` field; per spec §4.3 / §3 the backend also reports the
actual expiry it granted. -/
structure FileAccessTokenResponse where
  access_token : String
  expires_in_minutes : Nat
deriving DecidableEq, Repr

/-- A minting backend in the role of `createFileAccessToken` of the missing
`api/auth.ts`: takes the file id and the requested TTL in minutes, and either
fails with a typed error (Unauthorized, NotFound, …) or returns the token. -/
def Mint : Type := String → Nat → Except ApiError FileAccessTokenResponse

/-- `getFileDownloadUrl` from `api/file.ts` (lines 99–106) at an explicit
`expireMinutes`: mints a token for the file, then interpolates base URL, file
id and the token returned by the backend into the download URL. A mint failure
propagates (the `await` re-throws). -/
def getFileDownloadUrl (mint : Mint) (baseURL fileId : String)
    (expireMinutes : Nat) : Except ApiError String :=
  match mint fileId expireMinutes with
  | Except.error e => Except.error e
  | Except.ok tokenResponse =>
      Except.ok (baseURL ++ "/files/" ++ fileId ++ "?token=" ++ tokenResponse.access_token)

/-- `getFileDownloadUrl` called without an explicit `expireMinutes`: the
parameter defaults to `60` (`api/file.ts` line 101). -/
def getFileDownloadUrlDefault (mint : Mint) (baseURL fileId : String) :
    Except ApiError String :=
  getFileDownloadUrl mint baseURL fileId 60

/-! ## VNC URL (`api/agent.ts`, `getVNCUrl`) -/

/-- `BASE_URL.replace(/^http/, 'ws')` from `api/agent.ts` line 46: the regex
is anchored at the start, so it rewrites a leading `http` to `ws` (turning
`https` into `wss`) and leaves any other string unchanged. -/
def replaceLeadingHttpWithWs (s : String) : String :=
  match s with
  | ⟨'h' :: 't' :: 't' :: 'p' :: rest⟩ => ⟨'w' :: 's' :: rest⟩
  | s => s

/-- `getVNCUrl` from `api/agent.ts` (lines 44–48): ws-scheme base URL followed
by the session VNC path. No query parameter is appended. -/
def getVNCUrl (baseUrl sessionId : String) : String :=
  replaceLeadingHttpWithWs baseUrl ++ "/sessions/" ++ sessionId ++ "/vnc"

/-! ## Session lifecycle client (`api/agent.ts`) -/

/-- `createSession` from `api/agent.ts` (lines 11–14): `PUT /sessions`, then
unwrap the `data` field of the envelope. The response payload type is
abstracted as `α` (its shape lives in `types/response.ts`). -/
def createSession {α : Type} (transport : Transport α) : Except ApiError α :=
  (transport ⟨Method.put, "/sessions", []⟩).map ApiResponse.data

/-- `getSession` from `api/agent.ts` (lines 16–19): `GET /sessions/{id}`. -/
def getSession {α : Type} (transport : Transport α) (sessionId : String) :
    Except ApiError α :=
  (transport ⟨Method.get, "/sessions/" ++ sessionId, []⟩).map ApiResponse.data

/-- `getSessions` from `api/agent.ts` (lines 21–24): `GET /sessions`. -/
def getSessions {α : Type} (transport : Transport α) : Except ApiError α :=
  (transport ⟨Method.get, "/sessions", []⟩).map ApiResponse.data

/-- `deleteSession` from `api/agent.ts` (lines 36–38): `DELETE /sessions/{id}`,
result discarded (`Promise<void>`); failures still propagate. -/
def deleteSession {α : Type} (transport : Transport α) (sessionId : String) :
    Except ApiError Unit :=
  (transport ⟨Method.del, "/sessions/" ++ sessionId, []⟩).map (fun _ => ())

/-- `stopSession` from `api/agent.ts` (lines 40–42): `POST /sessions/{id}/stop`. -/
def stopSession {α : Type} (transport : Transport α) (sessionId : String) :
    Except ApiError Unit :=
  (transport ⟨Method.post, "/sessions/" ++ sessionId ++ "/stop", []⟩).map (fun _ => ())

/-- `shareSession` from `api/agent.ts` (lines 120–123): `POST /sessions/{id}/share`. -/
def shareSession {α : Type} (transport : Transport α) (sessionId : String) :
    Except ApiError α :=
  (transport ⟨Method.post, "/sessions/" ++ sessionId ++ "/share", []⟩).map ApiResponse.data

/-- `cancelShareSession` from `api/agent.ts` (lines 129–131):
`DELETE /sessions/{id}/share`. -/
def cancelShareSession {α : Type} (transport : Transport α) (sessionId : String) :
    Except ApiError Unit :=
  (transport ⟨Method.del, "/sessions/" ++ sessionId ++ "/share", []⟩).map (fun _ => ())

/-- `getSharedSession` from `api/agent.ts` (lines 139–146):
`GET /sessions/shared/{shareId}` with the share token in the `X-Share-Token`
header. -/
def getSharedSession {α : Type} (transport : Transport α)
    (shareId shareToken : String) : Except ApiError α :=
  (transport ⟨Method.get, "/sessions/shared/" ++ shareId,
    [("X-Share-Token", shareToken)]⟩).map ApiResponse.data

/-- `getSessionFiles` from `api/agent.ts` (lines 110–113):
`GET /sessions/{id}/files`. -/
def getSessionFiles (transport : Transport (List FileInfo)) (sessionId : String) :
    Except ApiError (List FileInfo) :=
  (transport ⟨Method.get, "/sessions/" ++ sessionId ++ "/files", []⟩).map ApiResponse.data

/-! ## Event stream manager (`createSSEConnection` of the missing
`api/client.ts`, modelled from the spec) -/

/-- The four stream kinds of `api/agent.ts` that share the
`createSSEConnection` contract: chat turn, shell-session view, file view and
session listing. -/
inductive StreamKind where
  | chat
  | shellView
  | fileView
  | sessionList
deriving DecidableEq, Repr

/-- The streamed endpoint each kind opens (`api/agent.ts` lines 26–34, 54–74,
82–91, 99–108). -/
def streamPath : StreamKind → String → String
  | StreamKind.chat, sessionId => "/sessions/" ++ sessionId ++ "/chat"
  | StreamKind.shellView, sessionId => "/sessions/" ++ sessionId ++ "/shell"
  | StreamKind.fileView, sessionId => "/sessions/" ++ sessionId ++ "/file"
  | StreamKind.sessionList, _ => "/sessions"

/-- An inbound frame of an open stream: either a decoded event payload or the
completion marker. -/
inductive Frame (ε : Type) where
  | event (e : ε)
  | complete
deriving DecidableEq, Repr

/-- Modelled from the spec: the per-stream state of the missing
`createSSEConnection` helper of `api/client.ts` (spec §3 `StreamHandle`,
§4.1, §5). `cancelled` is the latch set by the returned `cancel()` function;
`completed` records natural completion; `onEventCalls` is the sequence of
payloads delivered to `onEvent` so far (in delivery order) and
`onCompleteCalls` counts invocations of `onComplete`. -/
structure StreamState (ε : Type) where
  cancelled : Bool
  completed : Bool
  onEventCalls : List ε
  onCompleteCalls : Nat
deriving DecidableEq, Repr

/-- The state of a freshly opened stream. -/
def StreamState.init (ε : Type) : StreamState ε :=
  ⟨false, false, [], 0⟩

/-- Modelled from the spec: the `cancel()` function returned by the
stream-opening call sets the cancellation latch (spec §4.1 and §5:
"the manager must treat cancelled as a latch checked before each dispatch"). -/
def cancelStream {ε : Type} (s : StreamState ε) : StreamState ε :=
  { s with cancelled := true }

/-- Modelled from the spec: dispatch of one inbound frame. The cancellation
latch (and the closed-after-completion flag) is checked before the dispatch;
only then is `onEvent` (for an event frame) or `onComplete` (for the
completion marker) invoked. -/
def dispatchFrame {ε : Type} (s : StreamState ε) (f : Frame ε) : StreamState ε :=
  if s.cancelled || s.completed then s
  else
    match f with
    | Frame.event e => { s with onEventCalls := s.onEventCalls ++ [e] }
    | Frame.complete => { s with completed := true, onCompleteCalls := s.onCompleteCalls + 1 }

/-- Dispatch of a whole sequence of inbound frames (already-buffered frames
included), in arrival order. -/
def dispatchFrames {ε : Type} (s : StreamState ε) (fs : List (Frame ε)) : StreamState ε :=
  fs.foldl dispatchFrame s

example :
    (dispatchFrames (StreamState.init Nat) [Frame.event 1, Frame.event 2, Frame.complete]).onEventCalls
      = [1, 2] := by decide
example :
    (dispatchFrames (cancelStream (StreamState.init Nat)) [Frame.event 1, Frame.complete])
      = cancelStream (StreamState.init Nat) := by decide

example : replaceLeadingHttpWithWs "https://h" = "wss://h" := by decide
example : getVNCUrl "http://h:5172" "s9" = "ws://h:5172/sessions/s9/vnc" := by decide
example : ¬ ('?' ∈ (getVNCUrl "https://h" "s1").data) := by decide

example : hasPermission none "read:file" = false := by decide
example :
    hasPermission (some ⟨"u1", "a", "a@x", true, UserRole.user⟩) "read:file" = true := by
  decide
example :
    hasPermission (some ⟨"u1", "a", "a@x", true, UserRole.user⟩) "admin:access" = false := by
  decide
example :
    canManageUsers (some ⟨"u1", "a", "a@x", false, UserRole.admin⟩) = true := by
  decide
example :
    canDeleteUser (some ⟨"u1", "a", "a@x", true, UserRole.admin⟩) "u1" = false := by
  decide

/-! ## Helper lemmas -/

/-- A cancelled stream ignores a dispatched frame entirely. -/
theorem dispatchFrame_of_cancelled {ε : Type} (s : StreamState ε) (f : Frame ε)
    (h : s.cancelled = true) : dispatchFrame s f = s := by
  simp [dispatchFrame, h]

/-- A cancelled stream ignores every sequence of dispatched frames. -/
theorem dispatchFrames_of_cancelled {ε : Type} (s : StreamState ε)
    (fs : List (Frame ε)) (h : s.cancelled = true) : dispatchFrames s fs = s := by
  induction fs with
  | nil => rfl
  | cons f fs ih =>
      simp only [dispatchFrames, List.foldl_cons] at *
      rw [dispatchFrame_of_cancelled s f h, ih]

/-! ## Claims -/

/-- C1: once `cancel()` has returned, no inbound frame — buffered or not —
triggers `onEvent` or `onComplete`: dispatching any frame sequence to a
cancelled stream leaves the whole stream state (in particular the recorded
`onEvent` payload sequence and the `onComplete` invocation count) unchanged.
This holds for every stream state and hence for all four stream kinds (chat,
shell-view, file-view, session-list), which share the dispatch model. -/
theorem cancel_stops_all_delivery {ε : Type} (s : StreamState ε)
    (fs : List (Frame ε)) :
    dispatchFrames (cancelStream s) fs = cancelStream s ∧
    (dispatchFrames (cancelStream s) fs).onEventCalls = s.onEventCalls ∧
    (dispatchFrames (cancelStream s) fs).onCompleteCalls = s.onCompleteCalls := by
  have h : dispatchFrames (cancelStream s) fs = cancelStream s :=
    dispatchFrames_of_cancelled _ fs rfl
  exact ⟨h, by rw [h]; rfl, by rw [h]; rfl⟩

/-- C2 counterexample: with a failing backend, `deleteFile` returns the
ordinary value `false` and `getFileInfo` returns `none` — the failure is
swallowed, not propagated as a typed failure (the return types `Bool` and
`Option FileInfo` carry no failure at all). -/
theorem deleteFile_swallows_counterexample :
    deleteFile (fun _ => Except.error ApiError.transport) "file-1" = false ∧
    getFileInfo (fun _ => Except.error ApiError.transport) "file-1" = none :=
  ⟨rfl, rfl⟩

/-- C2 amended: `deleteFile` and `getFileInfo` catch every transport/backend
failure and convert it into an ordinary return value — `false` respectively
`none` — while success yields `true` respectively the unwrapped payload. -/
theorem deleteFile_getFileInfo_catch (td : Transport Unit) (tg : Transport FileInfo)
    (fileId : String) :
    (∀ e, td ⟨Method.del, "/files/" ++ fileId, []⟩ = Except.error e →
      deleteFile td fileId = false) ∧
    (∀ r, td ⟨Method.del, "/files/" ++ fileId, []⟩ = Except.ok r →
      deleteFile td fileId = true) ∧
    (∀ e, tg ⟨Method.get, "/files/" ++ fileId, []⟩ = Except.error e →
      getFileInfo tg fileId = none) ∧
    (∀ r, tg ⟨Method.get, "/files/" ++ fileId, []⟩ = Except.ok r →
      getFileInfo tg fileId = some r.data) := by
  refine ⟨?_, ?_, ?_, ?_⟩ <;> intro x h <;> simp [deleteFile, getFileInfo, h]

/-- C2 amended, witness at a concrete failing and a concrete succeeding
backend. -/
theorem deleteFile_getFileInfo_catch_witness :
    deleteFile (fun _ => Except.error ApiError.notFound) "f1" = false ∧
    deleteFile (fun _ => Except.ok ⟨true, ()⟩) "f1" = true :=
  ⟨(deleteFile_getFileInfo_catch (fun _ => Except.error ApiError.notFound)
      (fun _ => Except.error ApiError.notFound) "f1").1 ApiError.notFound rfl,
   (deleteFile_getFileInfo_catch (fun _ => Except.ok ⟨true, ()⟩)
      (fun _ => Except.error ApiError.notFound) "f1").2.1 ⟨true, ()⟩ rfl⟩

/-- C3 counterexample: at base URL `https://h` and session `s1` the composed
URL is `wss://h/sessions/s1/vnc` — it contains no `?` at all, so no
`token=<accessToken>` query parameter is embedded, contradicting the claimed
shape `wss://<base>/sessions/s1/vnc?token=<accessToken>`. -/
theorem getVNCUrl_no_token_counterexample :
    getVNCUrl "https://h" "s1" = "wss://h/sessions/s1/vnc" ∧
    ¬ ('?' ∈ (getVNCUrl "https://h" "s1").data) :=
  ⟨rfl, by decide⟩

/-- C3 amended: the remote-desktop URL is
`ws(s)://<base>/sessions/{s}/vnc` with the scheme obtained by replacing a
leading `http` with `ws` (so `https` becomes `wss`); no access token is
embedded in the URL. -/
theorem getVNCUrl_scheme_replacement (r sessionId : String) :
    getVNCUrl ("http" ++ r) sessionId =
      "ws" ++ r ++ "/sessions/" ++ sessionId ++ "/vnc" ∧
    getVNCUrl ("https" ++ r) sessionId =
      "wss" ++ r ++ "/sessions/" ++ sessionId ++ "/vnc" := by
  cases r with
  | mk d => exact ⟨rfl, rfl⟩

/-- C4: `hasPermission` denies a missing user and an inactive user for every
permission string, and grants an active admin every permission string. -/
theorem hasPermission_null_inactive_admin (u : User) (p : String) :
    hasPermission none p = false ∧
    (u.is_active = false → hasPermission (some u) p = false) ∧
    (u.is_active = true → u.role = UserRole.admin → hasPermission (some u) p = true) := by
  refine ⟨rfl, ?_, ?_⟩
  · intro h; simp [hasPermission, h]
  · intro ha hr; simp [hasPermission, ha, hr]

/-- C4 witness: an inactive user is denied and an active admin is granted, at
concrete users and permissions. -/
theorem hasPermission_null_inactive_admin_witness :
    hasPermission (some ⟨"u1", "a", "a@x", false, UserRole.user⟩) "read:file" = false ∧
    hasPermission (some ⟨"u2", "b", "b@x", true, UserRole.admin⟩) "anything:str" = true :=
  ⟨(hasPermission_null_inactive_admin ⟨"u1", "a", "a@x", false, UserRole.user⟩ "read:file").2.1 rfl,
   (hasPermission_null_inactive_admin ⟨"u2", "b", "b@x", true, UserRole.admin⟩ "anything:str").2.2 rfl rfl⟩

/-- C5: for an active user with role `user`, `hasPermission` grants exactly
the ten permission strings of the fixed allow-list and denies every other
string. -/
theorem hasPermission_user_role_allowlist (u : User) (p : String)
    (ha : u.is_active = true) (hr : u.role = UserRole.user) :
    (hasPermission (some u) p = true ↔
      p ∈ (["read:profile", "update:profile", "change:password",
            "create:session", "read:session", "update:session", "delete:session",
            "upload:file", "read:file", "delete:file"] : List String)) := by
  simp [hasPermission, ha, hr, rolePermissions, List.contains]

/-- C5 witness: a concrete active plain user is granted `read:profile` (a
member of the allow-list). -/
theorem hasPermission_user_role_allowlist_witness :
    hasPermission (some ⟨"u1", "a", "a@x", true, UserRole.user⟩) "read:profile" = true :=
  (hasPermission_user_role_allowlist ⟨"u1", "a", "a@x", true, UserRole.user⟩
    "read:profile" rfl rfl).mpr (by decide)

/-- C6: `canDeleteUser` denies a missing user, an inactive user, and every
self-deletion (admins included); an active admin may delete any other id; an
active plain user may delete no one. -/
theorem canDeleteUser_rules (u : User) (targetId : String) :
    canDeleteUser none targetId = false ∧
    (u.id = targetId → canDeleteUser (some u) targetId = false) ∧
    (u.is_active = false → canDeleteUser (some u) targetId = false) ∧
    (u.is_active = true → u.role = UserRole.admin → u.id ≠ targetId →
      canDeleteUser (some u) targetId = true) ∧
    (u.is_active = true → u.role = UserRole.user →
      canDeleteUser (some u) targetId = false) := by
  refine ⟨rfl, ?_, ?_, ?_, ?_⟩
  · intro hid
    by_cases hb : u.is_active <;> simp [canDeleteUser, hid, hb]
  · intro ha; simp [canDeleteUser, ha]
  · intro ha hr hid; simp [canDeleteUser, ha, hr, hid]
  · intro ha hr
    by_cases hid : u.id = targetId <;> simp [canDeleteUser, ha, hr, hid]

/-- C6 witness: at concrete users — an admin cannot delete itself, can delete
another id; a plain user cannot delete another id. -/
theorem canDeleteUser_rules_witness :
    canDeleteUser (some ⟨"a1", "r", "r@x", true, UserRole.admin⟩) "a1" = false ∧
    canDeleteUser (some ⟨"a1", "r", "r@x", true, UserRole.admin⟩) "u2" = true ∧
    canDeleteUser (some ⟨"u1", "a", "a@x", true, UserRole.user⟩) "u2" = false :=
  ⟨(canDeleteUser_rules ⟨"a1", "r", "r@x", true, UserRole.admin⟩ "a1").2.1 rfl,
   (canDeleteUser_rules ⟨"a1", "r", "r@x", true, UserRole.admin⟩ "u2").2.2.2.1 rfl rfl
     (by decide),
   (canDeleteUser_rules ⟨"u1", "a", "a@x", true, UserRole.user⟩ "u2").2.2.2.2 rfl rfl⟩

/-- C7: without an explicit `expireMinutes`, `getFileDownloadUrl` requests the
token with a TTL of 60 minutes, and whenever that mint call returns a token,
the result is exactly `<base>/files/{fileId}?token=<t>` where `<t>` is the
`access_token` value the backend returned. -/
theorem getFileDownloadUrl_default_sixty (mint : Mint) (baseURL fileId : String)
    (tokenResponse : FileAccessTokenResponse)
    (h : mint fileId 60 = Except.ok tokenResponse) :
    getFileDownloadUrlDefault mint baseURL fileId =
      getFileDownloadUrl mint baseURL fileId 60 ∧
    getFileDownloadUrlDefault mint baseURL fileId =
      Except.ok (baseURL ++ "/files/" ++ fileId ++ "?token=" ++
        tokenResponse.access_token) := by
  exact ⟨rfl, by simp [getFileDownloadUrlDefault, getFileDownloadUrl, h]⟩

/-- C7 witness: a concrete minting backend returning token `tok123` yields the
concrete download URL. -/
theorem getFileDownloadUrl_default_sixty_witness :
    getFileDownloadUrlDefault (fun _ m => Except.ok ⟨"tok123", m⟩) "http://b" "f1" =
      Except.ok ("http://b" ++ "/files/" ++ "f1" ++ "?token=" ++ "tok123") :=
  (getFileDownloadUrl_default_sixty (fun _ m => Except.ok ⟨"tok123", m⟩)
    "http://b" "f1" ⟨"tok123", 60⟩ rfl).2

/-- C8: if the token-minting call fails, the failure propagates out of
`getFileDownloadUrl` unchanged and no download URL is ever returned. -/
theorem getFileDownloadUrl_mint_failure (mint : Mint) (baseURL fileId : String)
    (expireMinutes : Nat) (e : ApiError)
    (h : mint fileId expireMinutes = Except.error e) :
    getFileDownloadUrl mint baseURL fileId expireMinutes = Except.error e ∧
    ∀ url : String,
      getFileDownloadUrl mint baseURL fileId expireMinutes ≠ Except.ok url := by
  have hmain : getFileDownloadUrl mint baseURL fileId expireMinutes = Except.error e := by
    simp [getFileDownloadUrl, h]
  exact ⟨hmain, fun url hurl => by rw [hmain] at hurl; exact Except.noConfusion hurl⟩

/-- C8 witness: a concrete minting backend failing with Unauthorized makes
`getFileDownloadUrl` fail with Unauthorized. -/
theorem getFileDownloadUrl_mint_failure_witness :
    getFileDownloadUrl (fun _ _ => Except.error ApiError.unauthorized) "http://b" "f1" 60 =
      Except.error ApiError.unauthorized :=
  (getFileDownloadUrl_mint_failure (fun _ _ => Except.error ApiError.unauthorized)
    "http://b" "f1" 60 ApiError.unauthorized rfl).1

/-- C9: each session-lifecycle operation issues exactly its documented method
and path (share token in the `X-Share-Token` header for the shared lookup),
and every result-yielding operation returns the unwrapped `data` field of the
`ApiResponse` envelope the transport produced. -/
theorem sessionLifecycle_methods_paths {α : Type} (t : Transport α)
    (tv : Transport Unit) (sessionId shareId shareToken : String) :
    createSession t = (t ⟨Method.put, "/sessions", []⟩).map ApiResponse.data ∧
    getSession t sessionId =
      (t ⟨Method.get, "/sessions/" ++ sessionId, []⟩).map ApiResponse.data ∧
    deleteSession tv sessionId =
      (tv ⟨Method.del, "/sessions/" ++ sessionId, []⟩).map (fun _ => ()) ∧
    stopSession tv sessionId =
      (tv ⟨Method.post, "/sessions/" ++ sessionId ++ "/stop", []⟩).map (fun _ => ()) ∧
    shareSession t sessionId =
      (t ⟨Method.post, "/sessions/" ++ sessionId ++ "/share", []⟩).map ApiResponse.data ∧
    cancelShareSession tv sessionId =
      (tv ⟨Method.del, "/sessions/" ++ sessionId ++ "/share", []⟩).map (fun _ => ()) ∧
    getSharedSession t shareId shareToken =
      (t ⟨Method.get, "/sessions/shared/" ++ shareId,
        [("X-Share-Token", shareToken)]⟩).map ApiResponse.data ∧
    (∀ env : ApiResponse α, t ⟨Method.put, "/sessions", []⟩ = Except.ok env →
      createSession t = Except.ok env.data) ∧
    (∀ env : ApiResponse α,
      t ⟨Method.get, "/sessions/shared/" ++ shareId,
        [("X-Share-Token", shareToken)]⟩ = Except.ok env →
      getSharedSession t shareId shareToken = Except.ok env.data) := by
  refine ⟨rfl, rfl, rfl, rfl, rfl, rfl, rfl, ?_, ?_⟩
  · intro env h; simp [createSession, h, Except.map]
  · intro env h; simp [getSharedSession, h, Except.map]

/-- C9 witness: with a concrete transport answering `ok ⟨true, 42⟩` to the
create request, `createSession` returns the unwrapped payload `42`. -/
theorem sessionLifecycle_methods_paths_witness :
    createSession (fun _ => Except.ok (⟨true, 42⟩ : ApiResponse Nat)) = Except.ok 42 :=
  (sessionLifecycle_methods_paths (fun _ => Except.ok (⟨true, 42⟩ : ApiResponse Nat))
    (fun _ => Except.ok ⟨true, ()⟩) "s1" "sh1" "tok").2.2.2.2.2.2.2.1 ⟨true, 42⟩ rfl

/-- C10: for every user with role admin, `canManageUsers` is true even when
the user is inactive — the admin-role disjunct is evaluated without the
`is_active` check — while `hasPermission` and the derived checks
`canViewUser`, `canEditUser`, `canDeleteUser` all deny that same inactive
user. -/
theorem canManageUsers_ignores_is_active (u : User) (targetId p : String)
    (hr : u.role = UserRole.admin) :
    canManageUsers (some u) = true ∧
    (u.is_active = false →
      hasPermission (some u) p = false ∧
      canViewUser (some u) targetId = false ∧
      canEditUser (some u) targetId = false ∧
      canDeleteUser (some u) targetId = false) := by
  constructor
  · simp [canManageUsers, hr]
  · intro ha
    exact ⟨by simp [hasPermission, ha], by simp [canViewUser, ha],
      by simp [canEditUser, ha], by simp [canDeleteUser, ha]⟩

/-- C10 witness: a concrete inactive admin for whom `canManageUsers` is true
while `hasPermission` denies everything. -/
theorem canManageUsers_ignores_is_active_witness :
    canManageUsers (some ⟨"a9", "r", "r@x", false, UserRole.admin⟩) = true ∧
    hasPermission (some ⟨"a9", "r", "r@x", false, UserRole.admin⟩) "manage:users" = false :=
  ⟨(canManageUsers_ignores_is_active ⟨"a9", "r", "r@x", false, UserRole.admin⟩
      "t" "manage:users" rfl).1,
   ((canManageUsers_ignores_is_active ⟨"a9", "r", "r@x", false, UserRole.admin⟩
      "t" "manage:users" rfl).2 rfl).1⟩
